import Mathlib

/-!
Verification development for the Eplucon heat-pump integration
(custom_components/eplucon): a shallow embedding in Lean 4 of the API
client (eplucon_api/eplucon_client.py), the update orchestrator
(__init__.py, async_update_data) and the sensor value mapper (sensor.py),
together with theorems about the behaviour of those functions.

Python conventions are embedded as follows: machine floats carrying exact
decimal telemetry are rationals, fallible code returns Except over an
exception type, object attributes that may be None are Option, and dicts
are association lists looked up front to back.
-/

namespace Eplucon

/-- JSON values as delivered by the vendor API. -/
inductive Json where
  | null
  | bool (b : Bool)
  | num (q : ℚ)
  | str (s : String)
  | arr (xs : List Json)
  | obj (fields : List (String × Json))

/-- Python exceptions that the embedded code can raise.  `apiError` embeds
the class ApiError of eplucon_client.py (the spec calls it ProtocolError)
and `apiAuthError` embeds ApiAuthError (the spec calls it AuthError); the
remaining constructors embed the built-in Python exception classes that
attribute access on None, indexing and int() coercion can raise. -/
inductive PyErr where
  | apiError (msg : String)
  | apiAuthError (msg : String)
  | attributeError
  | typeError
  | valueError
  | keyError
  | decodeError
deriving DecidableEq, Repr

/-- Front-to-back lookup in an association list; embeds Python dict
indexing and the `in` test on dict keys. -/
def lookupKey {α : Type} (k : String) : List (String × α) → Option α
  | [] => none
  | (k2, v) :: rest => if k2 = k then some v else lookupKey k rest

/-- Python truthiness of a JSON value: None, False, 0, empty string and
empty containers are falsy, everything else is truthy. -/
def truthy : Json → Bool
  | .null => false
  | .bool b => b
  | .num q => decide (q ≠ 0)
  | .str s => decide (s ≠ "")
  | .arr xs => !xs.isEmpty
  | .obj fs => !fs.isEmpty

/-- Embeds EpluconApi.validate_response (eplucon_client.py lines 141-154):
a missing auth key raises ApiError, a present but falsy auth value raises
ApiAuthError, otherwise validation returns without error. -/
def validate_response (response : List (String × Json)) : Except PyErr Unit :=
  match lookupKey "auth" response with
  | none => .error (.apiError "Error from Eplucon API, expecting auth key in response.")
  | some auth_status =>
    if truthy auth_status = false then
      .error (.apiAuthError "Authentication failed: Please check the given API key.")
    else
      .ok ()

/-- A scalar telemetry value as the vendor delivers it: an integer, an
exact numeric (Python float carrying decimal telemetry, embedded as a
rational), or a string. -/
inductive Val where
  | vInt (n : Int)
  | vNum (q : ℚ)
  | vStr (s : String)
deriving DecidableEq, Repr

/-- Modelled from the spec: DTO/CommonInfoDTO.py is absent from src/; per
the data model this is a flat record of optional numeric/string telemetry
fields, all nullable, with exactly the fields the sensor table of
sensor.py reads. -/
structure CommonInfoDTO where
  indoor_temperature : Option Val := none
  act_vent_rpm : Option Val := none
  brine_circulation_pump : Option Val := none
  brine_in_temperature : Option Val := none
  brine_out_temperature : Option Val := none
  brine_pressure : Option Val := none
  compressor_speed : Option Val := none
  condensation_temperature : Option Val := none
  configured_indoor_temperature : Option Val := none
  cv_pressure : Option Val := none
  energy_delivered : Option Val := none
  energy_usage : Option Val := none
  evaporation_temperature : Option Val := none
  export_energy : Option Val := none
  heating_in_temperature : Option Val := none
  heating_out_temperature : Option Val := none
  import_energy : Option Val := none
  inverter_temperature : Option Val := none
  operating_hours : Option Val := none
  outdoor_temperature : Option Val := none
  overheating : Option Val := none
  press_gas_pressure : Option Val := none
  press_gas_temperature : Option Val := none
  production_circulation_pump : Option Val := none
  suction_gas_pressure : Option Val := none
  suction_gas_temperature : Option Val := none
  total_active_power : Option Val := none
  ww_temperature : Option Val := none
  ww_temperature_configured : Option Val := none
  active_requests_ww : Option Val := none
  dg1 : Option Val := none
  sg2 : Option Val := none
  sg3 : Option Val := none
  sg4 : Option Val := none
  spf : Option Val := none
  position_expansion_ventil : Option Val := none
  number_of_starts : Option Val := none
  heating_mode : Option Val := none
  warmwater : Option Val := none
  alarm_active : Option Val := none
  current_heating_pump_state : Option Val := none
  current_heating_state : Option Val := none
  operation_mode : Option Val := none

/-- Modelled from the spec: DTO/RealtimeInfoDTO.py is absent from src/;
a realtime snapshot pairs the nullable common telemetry record with the
opaque heatpump payload carried through uninterpreted. -/
structure RealtimeInfoDTO where
  common : Option CommonInfoDTO
  heatpump : Json

/-- Modelled from the spec: DTO/HeatLoadingDTO.py is absent from src/; a
heat-loading status has a nullable active flag and a nullable string-keyed
configurations mapping. -/
structure HeatLoadingDTO where
  heatloading_active : Option Val := none
  configurations : Option (List (String × Val)) := none

/-- Modelled from the spec: DTO/DeviceDTO.py is absent from src/; a device
record carries the four identity fields id, name, type and
account_module_index plus the nullable realtime_info and
heatloading_status payloads attached by the orchestrator. -/
structure DeviceDTO where
  id : Int
  name : String
  type : String
  account_module_index : String
  realtime_info : Option RealtimeInfoDTO := none
  heatloading_status : Option HeatLoadingDTO := none

/-! ## API client (eplucon_api/eplucon_client.py) -/

/-- Modelled from the spec: the DeviceDTO constructor applied as
DeviceDTO(**device) in get_devices (DTO/DeviceDTO.py is absent from
src/) builds the record from the id, name, type and account_module_index
members of a JSON object, ignoring arbitrary extra fields; a missing or
ill-typed required field fails with DecodeError. -/
def deviceFromJson (obj : List (String × Json)) : Except PyErr DeviceDTO :=
  match lookupKey "id" obj, lookupKey "name" obj,
        lookupKey "type" obj, lookupKey "account_module_index" obj with
  | some (.num i), some (.str n), some (.str t), some (.str a) =>
    if i.den = 1 then
      .ok { id := i.num, name := n, type := t, account_module_index := a }
    else
      .error .decodeError
  | _, _, _, _ => .error .decodeError

/-- Lifts deviceFromJson to an arbitrary JSON value: a non-object entry of
the data array cannot be unpacked with ** and fails. -/
def deviceFromJsonE : Json → Except PyErr DeviceDTO
  | .obj fields => deviceFromJson fields
  | _ => .error .typeError

/-- Embeds the list comprehension of get_devices (eplucon_client.py line
68): devices are built left to right, one per entry of the data array, and
the first failing entry aborts the whole construction. -/
def buildDeviceDTOs : List Json → Except PyErr (List DeviceDTO)
  | [] => .ok []
  | x :: xs =>
    match deviceFromJsonE x with
    | .error e => .error e
    | .ok d =>
      match buildDeviceDTOs xs with
      | .error e => .error e
      | .ok rest => .ok (d :: rest)

/-- Embeds EpluconApi.get_devices (eplucon_client.py lines 51-73) applied
to an HTTP response given by its status code and parsed JSON body: a
non-200 status raises ApiError, then the envelope is validated, then the
data array (defaulting to empty when absent) is mapped to DeviceDTOs. -/
def get_devices (status : Nat) (body : List (String × Json)) : Except PyErr (List DeviceDTO) :=
  if status ≠ 200 then
    .error (.apiError s!"API returned status {status}")
  else
    match validate_response body with
    | .error e => .error e
    | .ok _ =>
      match (lookupKey "data" body).getD (.arr []) with
      | .arr xs => buildDeviceDTOs xs
      | _ => .error .typeError

/-! ## Update orchestrator (__init__.py, async_update_data) -/

/-- The two per-device read operations of the API client as seen by the
orchestrator: each fetch either yields a fresh DTO or raises.  The HTTP
and envelope mechanics behind them are embedded separately by
validate_response and get_devices. -/
structure Api where
  get_realtime_info : Int → Except PyErr RealtimeInfoDTO
  get_heatpump_heatloading_status : Int → Except PyErr HeatLoadingDTO

/-- Embeds the per-device copy of async_update_data (__init__.py lines
41-52): a fresh record is built from the stored device, field by field,
excluding realtime_info and heatloading_status, so that processing never
aliases the stored list. -/
def copyDevice (device : DeviceDTO) : DeviceDTO :=
  { id := device.id, name := device.name, type := device.type,
    account_module_index := device.account_module_index }

/-- Embeds the per-device loop of async_update_data (__init__.py lines
60-95) over the already-copied device list.  First component: the cycle
result, either the full ordered snapshot list or the first error raised
by a fetch (the except blocks at lines 102-108 re-raise, so the first
exception aborts the cycle and no list is returned).  Second component:
the ids for which telemetry was fetched, instrumenting the two client
calls so that the skip policy for unsupported types is observable. -/
def updateLoop (api : Api) (supported_types : List String) :
    List DeviceDTO → Except PyErr (List DeviceDTO) × List Int
  | [] => (.ok [], [])
  | entry_device :: rest =>
    if supported_types.contains entry_device.type = false then
      updateLoop api supported_types rest
    else
      match api.get_realtime_info entry_device.id with
      | .error e => (.error e, [entry_device.id])
      | .ok realtime_info =>
        let new_device : DeviceDTO :=
          { id := entry_device.id, name := entry_device.name,
            type := entry_device.type,
            account_module_index := entry_device.account_module_index,
            realtime_info := some realtime_info }
        match api.get_heatpump_heatloading_status new_device.id with
        | .error e => (.error e, [entry_device.id])
        | .ok heatloading_status =>
          let new_device2 := { new_device with heatloading_status := some heatloading_status }
          match updateLoop api supported_types rest with
          | (.error e, tr) => (.error e, entry_device.id :: tr)
          | (.ok final_rest, tr) => (.ok (new_device2 :: final_rest), entry_device.id :: tr)

/-- Embeds async_update_data (__init__.py lines 35-108) with the entry
state passed explicitly: the stored tracked-device list is copied, the
copies are processed by updateLoop, and the stored list itself is handed
back as the post-cycle state (the function never assigns to it).  The
supported-type set SUPPORTED_TYPES lives in const.py, outside src/, and is
passed as a parameter per the spec (a fixed allow-list configured
externally). -/
def async_update_data (api : Api) (supported_types : List String)
    (stored_devices : List DeviceDTO) :
    Except PyErr (List DeviceDTO) × List DeviceDTO :=
  let entry_devices := stored_devices.map copyDevice
  ((updateLoop api supported_types entry_devices).1, stored_devices)

/-- The ids for which a cycle fetches telemetry (the instrumentation
component of updateLoop, run on the same copied list as the cycle). -/
def fetched_ids (api : Api) (supported_types : List String)
    (stored_devices : List DeviceDTO) : List Int :=
  (updateLoop api supported_types (stored_devices.map copyDevice)).2

/-- The four identity fields of a device record. -/
def identOf (d : DeviceDTO) : Int × String × String × String :=
  (d.id, d.name, d.type, d.account_module_index)

/-! ## Sensor value mapper (sensor.py) -/

/-- A field descriptor of the declarative sensor table, embedding
EpluconSensorEntityDescription (sensor.py lines 31-37) with the
claim-relevant members: key, display name, existence predicate and value
function (Home-Assistant presentation metadata is platform glue).  A value
function returns the computed scalar, None included, or the Python
exception its body raises. -/
structure EpluconSensorEntityDescription where
  key : String
  name : String
  exists_fn : DeviceDTO → Bool
  value_fn : DeviceDTO → Except PyErr (Option Val)

/-- Embeds the common-telemetry existence predicates of the table:
device.realtime_info is not None and its common record is not None and
the selected field is not None. -/
def commonExists (f : CommonInfoDTO → Option Val) (device : DeviceDTO) : Bool :=
  match device.realtime_info with
  | none => false
  | some rt =>
    match rt.common with
    | none => false
    | some c => (f c).isSome

/-- Embeds the plain common-telemetry value lambdas, e.g.
device.realtime_info.common.indoor_temperature: attribute access on a None
realtime_info or common raises AttributeError, otherwise the raw field is
returned as is. -/
def commonValue (f : CommonInfoDTO → Option Val) (device : DeviceDTO) :
    Except PyErr (Option Val) :=
  match device.realtime_info with
  | none => .error .attributeError
  | some rt =>
    match rt.common with
    | none => .error .attributeError
    | some c => .ok (f c)

/-- Embeds the binary-coded value lambdas, e.g. the active_requests_ww
entry at sensor.py line 307: the string ON when the raw value is the
string ON or the string 1, OFF for anything else, a None field included. -/
def commonOnOffValue (f : CommonInfoDTO → Option Val) (device : DeviceDTO) :
    Except PyErr (Option Val) :=
  match device.realtime_info with
  | none => .error .attributeError
  | some rt =>
    match rt.common with
    | none => .error .attributeError
    | some c =>
      .ok (some (if f c = some (.vStr "ON") ∨ f c = some (.vStr "1")
        then .vStr "ON" else .vStr "OFF"))

/-- Python comparison of a raw telemetry value with the int 0: strings do
not order-compare with integers in Python 3 and raise TypeError. -/
def valGtZero : Val → Except PyErr Bool
  | .vInt n => .ok (decide (0 < n))
  | .vNum q => .ok (decide (0 < q))
  | .vStr _ => .error .typeError

/-- Python division of a raw telemetry value by the int 100 (true
division, yielding a numeric). -/
def valDiv100 : Val → Except PyErr Val
  | .vInt n => .ok (.vNum ((n : ℚ) / 100))
  | .vNum q => .ok (.vNum (q / 100))
  | .vStr _ => .error .typeError

/-- Embeds the energy-counter value lambdas of the export_energy entry
(sensor.py line 163) and the import_energy entry (line 191):
x / 100 if x > 0 else x, where comparing a None field with 0 raises
TypeError. -/
def energyScaledValue (f : CommonInfoDTO → Option Val) (device : DeviceDTO) :
    Except PyErr (Option Val) :=
  match device.realtime_info with
  | none => .error .attributeError
  | some rt =>
    match rt.common with
    | none => .error .attributeError
    | some c =>
      match f c with
      | none => .error .typeError
      | some raw =>
        match valGtZero raw with
        | .error e => .error e
        | .ok true =>
          match valDiv100 raw with
          | .error e => .error e
          | .ok scaled => .ok (some scaled)
        | .ok false => .ok (some raw)

/-- Embeds the heatloading_active value lambda (sensor.py line 399). -/
def heatloadingActiveValue (device : DeviceDTO) : Except PyErr (Option Val) :=
  match device.heatloading_status with
  | none => .error .attributeError
  | some h => .ok h.heatloading_active

/-- Embeds the heatloading_active existence predicate (sensor.py line
400). -/
def heatloadingActiveExists (device : DeviceDTO) : Bool :=
  match device.heatloading_status with
  | none => false
  | some h => h.heatloading_active.isSome

/-- Embeds the configurations-indexing value lambdas (sensor.py lines 406
and 413): indexing a None configurations mapping raises TypeError, a
missing key raises KeyError. -/
def configurationsValue (k : String) (device : DeviceDTO) : Except PyErr (Option Val) :=
  match device.heatloading_status with
  | none => .error .attributeError
  | some h =>
    match h.configurations with
    | none => .error .typeError
    | some cfg =>
      match lookupKey k cfg with
      | none => .error .keyError
      | some v => .ok (some v)

/-- Embeds the configurations-key existence predicates (sensor.py lines
407 and 414): heatloading_status not None, configurations not None, and
the key present in the mapping. -/
def configurationsExists (k : String) (device : DeviceDTO) : Bool :=
  match device.heatloading_status with
  | none => false
  | some h =>
    match h.configurations with
    | none => false
    | some cfg => (lookupKey k cfg).isSome

/-- Python int() coercion of a raw telemetry value: None raises TypeError,
an int passes through, a float truncates toward zero, a string parses as
a decimal integer or raises ValueError. -/
def pyIntOf : Option Val → Except PyErr Int
  | none => .error .typeError
  | some (.vInt n) => .ok n
  | some (.vNum q) => .ok (q.num / (q.den : Int))
  | some (.vStr s) =>
    match s.toInt? with
    | some n => .ok n
    | none => .error .valueError

/-- Embeds get_friendly_operation_mode_text (sensor.py lines 432-450):
int() coercion of the operation mode with TypeError and ValueError caught
as the string Unavailable, then a fixed lookup table with Dutch texts and
a default; attribute access on a None realtime_info or common is outside
the try block in the source only via the guarded callers, and here raises
AttributeError uncaught. -/
def get_friendly_operation_mode_text (device : DeviceDTO) : Except PyErr String :=
  match device.realtime_info with
  | none => .error .attributeError
  | some rt =>
    match rt.common with
    | none => .error .attributeError
    | some c =>
      match pyIntOf c.operation_mode with
      | .error .typeError => .ok "Unavailable"
      | .error .valueError => .ok "Unavailable"
      | .error e => .error e
      | .ok operation_mode =>
        .ok (if operation_mode = 1 then "Koeling"
          else if operation_mode = 2 then "Verwarming"
          else if operation_mode = 3 then "Auto th-TOUCH"
          else if operation_mode = 4 then "Auto Wp"
          else if operation_mode = 5 then "Haard"
          else "Unknown operation mode")

/-- Embeds get_friendly_heating_mode_text (sensor.py lines 452-468). -/
def get_friendly_heating_mode_text (device : DeviceDTO) : Except PyErr String :=
  match device.realtime_info with
  | none => .error .attributeError
  | some rt =>
    match rt.common with
    | none => .error .attributeError
    | some c =>
      match pyIntOf c.heating_mode with
      | .error .typeError => .ok "Unavailable"
      | .error .valueError => .ok "Unavailable"
      | .error e => .error e
      | .ok heating_mode =>
        .ok (if heating_mode = 0 then "Off"
          else if heating_mode = 1 then "On"
          else if heating_mode = 2 then "Emergency operation"
          else if heating_mode = 3 then "APX"
          else "Unknown heating mode")

/-- Builds a plain common-telemetry descriptor of the SENSORS table. -/
def mkCommonSensor (key nm : String) (f : CommonInfoDTO → Option Val) :
    EpluconSensorEntityDescription :=
  { key := key, name := nm, exists_fn := commonExists f, value_fn := commonValue f }

/-- Builds a binary-coded descriptor of the SENSORS table. -/
def mkOnOffSensor (key nm : String) (f : CommonInfoDTO → Option Val) :
    EpluconSensorEntityDescription :=
  { key := key, name := nm, exists_fn := commonExists f, value_fn := commonOnOffValue f }

/-- The first table entry (sensor.py lines 42-50). -/
def sensor_indoor_temperature : EpluconSensorEntityDescription :=
  mkCommonSensor "indoor_temperature" "Indoor Temperature" (fun c => c.indoor_temperature)

/-- The export_energy entry (sensor.py lines 157-165), with the vendor
scaling quirk in its value lambda. -/
def sensor_export_energy : EpluconSensorEntityDescription :=
  { key := "export_energy", name := "Export Energy",
    exists_fn := commonExists (fun c => c.export_energy),
    value_fn := energyScaledValue (fun c => c.export_energy) }

/-- The import_energy entry (sensor.py lines 185-193), with the same
scaling quirk. -/
def sensor_import_energy : EpluconSensorEntityDescription :=
  { key := "import_energy", name := "Import Energy",
    exists_fn := commonExists (fun c => c.import_energy),
    value_fn := energyScaledValue (fun c => c.import_energy) }

/-- The domestic_hot_water entry (sensor.py lines 402-408). -/
def sensor_domestic_hot_water : EpluconSensorEntityDescription :=
  { key := "domestic_hot_water", name := "Domestic Hot Water",
    exists_fn := configurationsExists "domestic_hot_water",
    value_fn := configurationsValue "domestic_hot_water" }

/-- The heatloading_for_heating entry (sensor.py lines 409-415): its
existence predicate checks the heatloading_for_heating key, but its value
lambda at line 413 indexes configurations with the domestic_hot_water
key. -/
def sensor_heatloading_for_heating : EpluconSensorEntityDescription :=
  { key := "heatloading_for_heating", name := "Heatloading for Heating",
    exists_fn := configurationsExists "heatloading_for_heating",
    value_fn := configurationsValue "domestic_hot_water" }

/-- The operation_mode_text entry (sensor.py lines 416-422). -/
def sensor_operation_mode_text : EpluconSensorEntityDescription :=
  { key := "operation_mode_text", name := "Operation Mode Text",
    exists_fn := commonExists (fun c => c.operation_mode),
    value_fn := fun device =>
      match get_friendly_operation_mode_text device with
      | .error e => .error e
      | .ok s => .ok (some (.vStr s)) }

/-- The heating_mode_text entry (sensor.py lines 423-429). -/
def sensor_heating_mode_text : EpluconSensorEntityDescription :=
  { key := "heating_mode_text", name := "Heating Mode Text",
    exists_fn := commonExists (fun c => c.heating_mode),
    value_fn := fun device =>
      match get_friendly_heating_mode_text device with
      | .error e => .error e
      | .ok s => .ok (some (.vStr s)) }

/-- The heatloading_active entry (sensor.py lines 395-401). -/
def sensor_heatloading_active : EpluconSensorEntityDescription :=
  { key := "heatloading_active", name := "Heatloading Active",
    exists_fn := heatloadingActiveExists,
    value_fn := heatloadingActiveValue }

/-- Embeds the SENSORS table (sensor.py lines 41-430), one descriptor per
source entry, in source order. -/
def SENSORS : List EpluconSensorEntityDescription :=
  [ sensor_indoor_temperature,
    mkCommonSensor "act_vent_rpm" "Act Vent RPM" (fun c => c.act_vent_rpm),
    mkCommonSensor "brine_circulation_pump" "Brine Circulation Pump" (fun c => c.brine_circulation_pump),
    mkCommonSensor "brine_in_temperature" "Brine In Temperature" (fun c => c.brine_in_temperature),
    mkCommonSensor "brine_out_temperature" "Brine Out Temperature" (fun c => c.brine_out_temperature),
    mkCommonSensor "brine_pressure" "Brine Pressure" (fun c => c.brine_pressure),
    mkCommonSensor "compressor_speed" "Compressor Speed" (fun c => c.compressor_speed),
    mkCommonSensor "condensation_temperature" "Condensation Temperature" (fun c => c.condensation_temperature),
    mkCommonSensor "configured_indoor_temperature" "Configured Indoor Temperature" (fun c => c.configured_indoor_temperature),
    mkCommonSensor "cv_pressure" "CV Pressure" (fun c => c.cv_pressure),
    mkCommonSensor "energy_delivered" "Energy Delivered" (fun c => c.energy_delivered),
    mkCommonSensor "energy_usage" "Energy Usage" (fun c => c.energy_usage),
    mkCommonSensor "evaporation_temperature" "Evaporation Temperature" (fun c => c.evaporation_temperature),
    sensor_export_energy,
    mkCommonSensor "heating_in_temperature" "Heating In Temperature" (fun c => c.heating_in_temperature),
    mkCommonSensor "heating_out_temperature" "Heating Out Temperature" (fun c => c.heating_out_temperature),
    sensor_import_energy,
    mkCommonSensor "inverter_temperature" "Inverter Temperature" (fun c => c.inverter_temperature),
    mkCommonSensor "operating_hours" "Operating Hours" (fun c => c.operating_hours),
    mkCommonSensor "outdoor_temperature" "Outdoor Temperature" (fun c => c.outdoor_temperature),
    mkCommonSensor "overheating" "Overheating" (fun c => c.overheating),
    mkCommonSensor "press_gas_pressure" "Press Gas Pressure" (fun c => c.press_gas_pressure),
    mkCommonSensor "press_gas_temperature" "Press Gas Temperature" (fun c => c.press_gas_temperature),
    mkCommonSensor "production_circulation_pump" "Production Circulation Pump" (fun c => c.production_circulation_pump),
    mkCommonSensor "suction_gas_pressure" "Suction Gas Pressure" (fun c => c.suction_gas_pressure),
    mkCommonSensor "suction_gas_temperature" "Suction Gas Temperature" (fun c => c.suction_gas_temperature),
    mkCommonSensor "total_active_power" "Total Active Power" (fun c => c.total_active_power),
    mkCommonSensor "ww_temperature" "WW Temperature" (fun c => c.ww_temperature),
    mkCommonSensor "ww_temperature_configured" "WW Temperature Configured" (fun c => c.ww_temperature_configured),
    mkOnOffSensor "active_requests_ww" "Active WW request" (fun c => c.active_requests_ww),
    mkOnOffSensor "dg1" "Direct Outlet (DG1)" (fun c => c.dg1),
    mkOnOffSensor "sg2" "Mixture Outlet (SG2)" (fun c => c.sg2),
    mkOnOffSensor "sg3" "Mixture Outlet (SG3)" (fun c => c.sg3),
    mkOnOffSensor "sg4" "Mixture Outlet (SG4)" (fun c => c.sg4),
    mkCommonSensor "spf" "Seasonal Performance Factor (SPF)" (fun c => c.spf),
    mkCommonSensor "position_expansion_ventil" "Position Expansion Ventil" (fun c => c.position_expansion_ventil),
    mkCommonSensor "number_of_starts" "Number of Starts" (fun c => c.number_of_starts),
    mkCommonSensor "heating_mode" "Heating Mode" (fun c => c.heating_mode),
    mkOnOffSensor "warmwater" "Warm Water" (fun c => c.warmwater),
    mkOnOffSensor "alarm_active" "Alarm Active" (fun c => c.alarm_active),
    mkOnOffSensor "current_heating_pump_state" "Current Heating Pump State" (fun c => c.current_heating_pump_state),
    mkOnOffSensor "current_heating_state" "Current Heating State" (fun c => c.current_heating_state),
    mkCommonSensor "operation_mode" "Operation Mode" (fun c => c.operation_mode),
    sensor_heatloading_active,
    sensor_domestic_hot_water,
    sensor_heatloading_for_heating,
    sensor_operation_mode_text,
    sensor_heating_mode_text ]

/-- Embeds the native_value property of EpluconSensorEntity (sensor.py
lines 592-601): the value function is evaluated inside a try block and any
exception is caught and turned into the None state for this one field. -/
def native_value (self_description : EpluconSensorEntityDescription)
    (self_device : DeviceDTO) : Option Val :=
  match self_description.value_fn self_device with
  | .ok v => v
  | .error _ => none

/-- Embeds EpluconSensorEntity._update_device_data (sensor.py lines
554-590): walk the new snapshot list in order, and at the first snapshot
whose id equals the held device id replace the held device wholesale and
stop; when no id matches, the held device is left unchanged (the old-value
and new-value reads around the replacement are logging only, with their
exceptions swallowed). -/
def update_device_data (self_device : DeviceDTO) :
    List DeviceDTO → DeviceDTO
  | [] => self_device
  | updated_device :: rest =>
    if updated_device.id = self_device.id then updated_device
    else update_device_data self_device rest

/-! ## Concrete fixtures used by witnesses and counterexamples -/

/-- A device whose realtime common telemetry carries only an operation
mode. -/
def exampleModeDevice (v : Option Val) : DeviceDTO :=
  { id := 1, name := "Heat pump", type := "heatpump", account_module_index := "ami-1",
    realtime_info := some { common := some { operation_mode := v }, heatpump := .null } }

/-- A device whose realtime common telemetry carries only an export energy
counter. -/
def exampleExportDevice (v : Option Val) : DeviceDTO :=
  { id := 1, name := "Heat pump", type := "heatpump", account_module_index := "ami-1",
    realtime_info := some { common := some { export_energy := v }, heatpump := .null } }

/-- A device whose realtime common telemetry carries only an import energy
counter. -/
def exampleImportDevice (v : Option Val) : DeviceDTO :=
  { id := 1, name := "Heat pump", type := "heatpump", account_module_index := "ami-1",
    realtime_info := some { common := some { import_energy := v }, heatpump := .null } }

/-- A bare device identity without payloads. -/
def exampleIdentity (i : Int) (t : String) : DeviceDTO :=
  { id := i, name := s!"Device {i}", type := t, account_module_index := s!"ami-{i}" }

/-! ## C1: response validation contract -/

/-- C1: for every JSON response envelope, validation fails with
ApiAuthError (AuthError) iff the auth key is present with a falsy value,
fails with ApiError (ProtocolError) iff the auth key is absent, and
returns without error otherwise. -/
theorem validate_response_contract (r : List (String × Json)) :
    ((∃ m, validate_response r = .error (.apiAuthError m)) ↔
      ∃ v, lookupKey "auth" r = some v ∧ truthy v = false) ∧
    ((∃ m, validate_response r = .error (.apiError m)) ↔
      lookupKey "auth" r = none) ∧
    (validate_response r = .ok () ↔
      ∃ v, lookupKey "auth" r = some v ∧ truthy v = true) := by
  cases h : lookupKey "auth" r with
  | none => simp [validate_response, h]
  | some v =>
    cases ht : truthy v with
    | false => simp [validate_response, h, ht]
    | true => simp [validate_response, h, ht]

/-- C1 witness: a truthy auth value validates, evaluated on a concrete
envelope. -/
theorem validate_response_contract_witness :
    validate_response [("auth", Json.bool true)] = .ok () :=
  (validate_response_contract [("auth", Json.bool true)]).2.2.mpr
    ⟨Json.bool true, rfl, rfl⟩

/-! ## C2: a failing per-device fetch aborts the whole cycle -/

/-- The copy taken at the start of a cycle preserves the four identity
fields. -/
lemma identOf_copyDevice (d : DeviceDTO) : identOf (copyDevice d) = identOf d := rfl

/-- When every supported device before position i fetches cleanly and the
device at position i is supported but one of its two fetches raises e, the
loop result is exactly that error. -/
lemma updateLoop_error_of_fetch_error (api : Api) (supported_types : List String) :
    ∀ (pre : List DeviceDTO) (d : DeviceDTO) (post : List DeviceDTO) (e : PyErr),
    (∀ p ∈ pre, supported_types.contains p.type = true →
      (∃ v, api.get_realtime_info p.id = .ok v) ∧
      (∃ w, api.get_heatpump_heatloading_status p.id = .ok w)) →
    supported_types.contains d.type = true →
    (api.get_realtime_info d.id = .error e ∨
      ((∃ v, api.get_realtime_info d.id = .ok v) ∧
        api.get_heatpump_heatloading_status d.id = .error e)) →
    (updateLoop api supported_types (pre ++ d :: post)).1 = .error e := by
  intro pre
  induction pre with
  | nil =>
    intro d post e _ hd hfetch
    have hd2 : d.type ∈ supported_types := by simpa using hd
    rcases hfetch with herr | ⟨⟨v, hv⟩, herr⟩
    · simp [updateLoop, hd2, herr]
    · simp [updateLoop, hd2, hv, herr]
  | cons p rest ih =>
    intro d post e hpre hd hfetch
    have h1 := ih d post e
      (fun q hq hqt => hpre q (List.mem_cons_of_mem p hq) hqt) hd hfetch
    cases hp : supported_types.contains p.type with
    | false =>
      have hp2 : p.type ∉ supported_types := by simpa using hp
      simpa [updateLoop, hp2] using h1
    | true =>
      have hp2 : p.type ∈ supported_types := by simpa using hp
      obtain ⟨⟨v, hv⟩, ⟨w, hw⟩⟩ := hpre p (List.mem_cons_self p rest) hp
      rcases hres : updateLoop api supported_types (rest ++ d :: post) with ⟨res, tr⟩
      rw [hres] at h1
      have h2 : res = Except.error e := h1
      subst h2
      simp [updateLoop, hp2, hv, hw, hres]

/-- C2: if during a refresh cycle the first failing per-device fetch
(realtime info or heat-loading status) of a supported device raises e,
the whole cycle result is that error and no snapshot list, partial or
otherwise, is returned, even with further devices still pending after the
failing one. -/
theorem refresh_aborts_on_fetch_error (api : Api) (supported_types : List String)
    (pre : List DeviceDTO) (d : DeviceDTO) (post : List DeviceDTO) (e : PyErr)
    (hpre : ∀ p ∈ pre, supported_types.contains p.type = true →
      (∃ v, api.get_realtime_info p.id = .ok v) ∧
      (∃ w, api.get_heatpump_heatloading_status p.id = .ok w))
    (hd : supported_types.contains d.type = true)
    (hfetch : api.get_realtime_info d.id = .error e ∨
      ((∃ v, api.get_realtime_info d.id = .ok v) ∧
        api.get_heatpump_heatloading_status d.id = .error e)) :
    (async_update_data api supported_types (pre ++ d :: post)).1 = .error e ∧
    ∀ l, (async_update_data api supported_types (pre ++ d :: post)).1 ≠ .ok l := by
  have h1 : (async_update_data api supported_types (pre ++ d :: post)).1 = .error e := by
    show (updateLoop api supported_types ((pre ++ d :: post).map copyDevice)).1 = .error e
    rw [List.map_append, List.map_cons]
    apply updateLoop_error_of_fetch_error
    · intro p hp hpt
      obtain ⟨q, hq, rfl⟩ := List.mem_map.mp hp
      exact hpre q hq hpt
    · exact hd
    · exact hfetch
  refine ⟨h1, fun l hl => ?_⟩
  rw [h1] at hl
  exact Except.noConfusion hl

/-- An API stub whose realtime fetch for device 1 raises the status-503
protocol error and whose other fetches succeed. -/
def exampleApi : Api :=
  { get_realtime_info := fun i =>
      if i = 1 then .error (.apiError "API returned status 503")
      else .ok { common := some {}, heatpump := .null },
    get_heatpump_heatloading_status := fun _ => .ok {} }

/-- C2 witness: with devices 1 and 2 tracked and the realtime fetch of
device 1 raising the status-503 protocol error while device 2 is still
pending, the cycle result is exactly that error. -/
theorem refresh_aborts_on_fetch_error_witness :
    (async_update_data exampleApi ["heatpump"]
      [exampleIdentity 1 "heatpump", exampleIdentity 2 "heatpump"]).1
      = .error (.apiError "API returned status 503") :=
  (refresh_aborts_on_fetch_error exampleApi ["heatpump"] []
    (exampleIdentity 1 "heatpump") [exampleIdentity 2 "heatpump"]
    (.apiError "API returned status 503")
    (fun p hp => absurd hp (List.not_mem_nil p))
    rfl (Or.inl rfl)).1

/-! ## C3: unsupported devices are skipped, supported ones processed in order -/

/-- A successful loop run emits exactly one snapshot per supported input
device, in input order, each carrying the identity fields of its source
device, and every emitted snapshot has a supported type. -/
lemma updateLoop_ok_filter (api : Api) (supported_types : List String) :
    ∀ (ds : List DeviceDTO) (l : List DeviceDTO),
    (updateLoop api supported_types ds).1 = .ok l →
    l.map identOf
      = (ds.filter (fun d => supported_types.contains d.type)).map identOf ∧
    ∀ d2 ∈ l, supported_types.contains d2.type = true := by
  intro ds
  induction ds with
  | nil =>
    intro l h
    have h2 : ([] : List DeviceDTO) = l := by simpa [updateLoop] using h
    subst h2
    simp
  | cons d rest ih =>
    intro l h
    cases hd : supported_types.contains d.type with
    | false =>
      have hd2 : d.type ∉ supported_types := by simpa using hd
      have h2 : (updateLoop api supported_types rest).1 = .ok l := by
        simpa [updateLoop, hd2] using h
      obtain ⟨ha, hb⟩ := ih l h2
      refine ⟨?_, hb⟩
      simpa [List.filter_cons, hd2] using ha
    | true =>
      have hd2 : d.type ∈ supported_types := by simpa using hd
      rcases hrt : api.get_realtime_info d.id with e | realtime_info
      · simp [updateLoop, hd2, hrt] at h
      · rcases hhl : api.get_heatpump_heatloading_status d.id with e | heatloading_status
        · simp [updateLoop, hd2, hrt, hhl] at h
        · rcases hres : updateLoop api supported_types rest with ⟨res, tr⟩
          cases res with
          | error e => simp [updateLoop, hd2, hrt, hhl, hres] at h
          | ok tail =>
            have h2 : (updateLoop api supported_types rest).1 = .ok tail := by
              rw [hres]
            obtain ⟨ha, hb⟩ := ih tail h2
            simp [updateLoop, hd2, hrt, hhl, hres] at h
            subst h
            constructor
            · simp [List.filter_cons, hd2, identOf, ha]
            · intro d2 hmem
              rcases List.mem_cons.mp hmem with rfl | hmem2
              · exact hd
              · exact hb d2 hmem2

/-- Telemetry is only ever fetched for devices of a supported type: every
id in the fetch trace belongs to a supported input device. -/
lemma updateLoop_trace_supported (api : Api) (supported_types : List String) :
    ∀ (ds : List DeviceDTO), ∀ i ∈ (updateLoop api supported_types ds).2,
    ∃ d ∈ ds, d.id = i ∧ supported_types.contains d.type = true := by
  intro ds
  induction ds with
  | nil => intro i hi; simp [updateLoop] at hi
  | cons d rest ih =>
    intro i hi
    cases hd : supported_types.contains d.type with
    | false =>
      have hd2 : d.type ∉ supported_types := by simpa using hd
      have hi2 : i ∈ (updateLoop api supported_types rest).2 := by
        simpa [updateLoop, hd2] using hi
      obtain ⟨q, hq, hid, ht⟩ := ih i hi2
      exact ⟨q, List.mem_cons_of_mem d hq, hid, ht⟩
    | true =>
      have hd2 : d.type ∈ supported_types := by simpa using hd
      rcases hrt : api.get_realtime_info d.id with e | realtime_info
      · have hi2 : i = d.id := by simpa [updateLoop, hd2, hrt] using hi
        exact ⟨d, List.mem_cons_self d rest, hi2.symm, hd⟩
      · rcases hhl : api.get_heatpump_heatloading_status d.id with e | heatloading_status
        · have hi2 : i = d.id := by simpa [updateLoop, hd2, hrt, hhl] using hi
          exact ⟨d, List.mem_cons_self d rest, hi2.symm, hd⟩
        · rcases hres : updateLoop api supported_types rest with ⟨res, tr⟩
          have htr : ∀ j ∈ tr, ∃ q ∈ rest, q.id = j ∧ supported_types.contains q.type = true := by
            intro j hj
            exact ih j (by rw [hres]; exact hj)
          cases res with
          | error e =>
            have hi2 : i = d.id ∨ i ∈ tr := by
              simpa [updateLoop, hd2, hrt, hhl, hres] using hi
            rcases hi2 with rfl | hi3
            · exact ⟨d, List.mem_cons_self d rest, rfl, hd⟩
            · obtain ⟨q, hq, hid, ht⟩ := htr i hi3
              exact ⟨q, List.mem_cons_of_mem d hq, hid, ht⟩
          | ok tail =>
            have hi2 : i = d.id ∨ i ∈ tr := by
              simpa [updateLoop, hd2, hrt, hhl, hres] using hi
            rcases hi2 with rfl | hi3
            · exact ⟨d, List.mem_cons_self d rest, rfl, hd⟩
            · obtain ⟨q, hq, hid, ht⟩ := htr i hi3
              exact ⟨q, List.mem_cons_of_mem d hq, hid, ht⟩

/-- Filtering the per-cycle copies by supported type yields the same
identity rows as filtering the stored devices themselves. -/
lemma map_identOf_filter_copy (supported_types : List String) :
    ∀ ds : List DeviceDTO,
    ((ds.map copyDevice).filter (fun d => supported_types.contains d.type)).map identOf
      = (ds.filter (fun d => supported_types.contains d.type)).map identOf := by
  intro ds
  induction ds with
  | nil => simp
  | cons d rest ih =>
    cases hd : supported_types.contains d.type with
    | false =>
      have hd2 : d.type ∉ supported_types := by simpa using hd
      have hd3 : (copyDevice d).type ∉ supported_types := hd2
      simpa [List.filter_cons, hd2, hd3] using ih
    | true =>
      have hd2 : d.type ∈ supported_types := by simpa using hd
      have hd3 : (copyDevice d).type ∈ supported_types := hd2
      simpa [List.filter_cons, hd2, hd3, identOf, copyDevice] using ih

/-- C3: a successful refresh cycle returns exactly one snapshot per
tracked identity with a supported type, in list order; every returned
snapshot has a supported type, so an unsupported identity is absent from
the returned list; telemetry is fetched only for supported identities;
and the stored list the next cycle reads is unchanged, so every
subsequent cycle of the same API behaves identically and the unsupported
identity stays absent. -/
theorem refresh_filters_unsupported (api : Api) (supported_types : List String)
    (stored_devices l : List DeviceDTO)
    (h : (async_update_data api supported_types stored_devices).1 = .ok l) :
    l.map identOf
      = (stored_devices.filter (fun d => supported_types.contains d.type)).map identOf ∧
    (∀ d2 ∈ l, supported_types.contains d2.type = true) ∧
    (∀ i ∈ fetched_ids api supported_types stored_devices,
      ∃ d ∈ stored_devices, d.id = i ∧ supported_types.contains d.type = true) ∧
    async_update_data api supported_types
        ((async_update_data api supported_types stored_devices).2)
      = async_update_data api supported_types stored_devices := by
  have h0 : (updateLoop api supported_types (stored_devices.map copyDevice)).1 = .ok l := h
  obtain ⟨ha, hb⟩ := updateLoop_ok_filter api supported_types _ l h0
  refine ⟨?_, hb, ?_, rfl⟩
  · rw [ha]
    exact map_identOf_filter_copy supported_types stored_devices
  · intro i hi
    obtain ⟨dc, hdc, hid, ht⟩ := updateLoop_trace_supported api supported_types _ i hi
    obtain ⟨q, hq, rfl⟩ := List.mem_map.mp hdc
    exact ⟨q, hq, hid, ht⟩

/-- An API stub whose fetches all succeed. -/
def exampleOkApi : Api :=
  { get_realtime_info := fun _ => .ok { common := some {}, heatpump := .null },
    get_heatpump_heatloading_status := fun _ => .ok {} }

/-- The snapshot list a cycle of exampleOkApi produces for the supported
device 1. -/
def exampleCycleOutput : List DeviceDTO :=
  [{ exampleIdentity 1 "supported" with
      realtime_info := some { common := some {}, heatpump := .null },
      heatloading_status := some {} }]

/-- C3 witness: with device 1 supported and device 2 unsupported, the
cycle output has exactly the identity row of device 1, matching the
supported-type filter of the tracked list. -/
theorem refresh_filters_unsupported_witness :
    (async_update_data exampleOkApi ["supported"]
      [exampleIdentity 1 "supported", exampleIdentity 2 "unsupported"]).1
      = .ok exampleCycleOutput ∧
    exampleCycleOutput.map identOf
      = ([exampleIdentity 1 "supported", exampleIdentity 2 "unsupported"].filter
          (fun d => (["supported"] : List String).contains d.type)).map identOf :=
  ⟨rfl,
    (refresh_filters_unsupported exampleOkApi ["supported"]
      [exampleIdentity 1 "supported", exampleIdentity 2 "unsupported"]
      exampleCycleOutput rfl).1⟩

/-! ## C10: a refresh cycle never mutates the stored tracked-device list -/

/-- C10: the stored tracked-device list a cycle hands back is exactly the
list it was given, whatever the API does (skipped devices and aborted
cycles included), and the per-device copy taken before processing rebuilds
every identity field while carrying no stale payloads. -/
theorem refresh_preserves_stored_devices (api : Api) (supported_types : List String)
    (stored_devices : List DeviceDTO) :
    (async_update_data api supported_types stored_devices).2 = stored_devices ∧
    ∀ d ∈ stored_devices,
      identOf (copyDevice d) = identOf d ∧
      (copyDevice d).realtime_info = none ∧
      (copyDevice d).heatloading_status = none :=
  ⟨rfl, fun _ _ => ⟨rfl, rfl, rfl⟩⟩

/-- C10 witness: a cycle that aborts with the status-503 error still hands
back the stored list unchanged, and the copies preserve the identity
fields. -/
theorem refresh_preserves_stored_devices_witness :
    (async_update_data exampleApi ["heatpump"]
      [exampleIdentity 1 "heatpump", exampleIdentity 2 "heatpump"]).2
      = [exampleIdentity 1 "heatpump", exampleIdentity 2 "heatpump"] ∧
    identOf (copyDevice (exampleIdentity 1 "heatpump")) = identOf (exampleIdentity 1 "heatpump") :=
  ⟨(refresh_preserves_stored_devices exampleApi ["heatpump"]
      [exampleIdentity 1 "heatpump", exampleIdentity 2 "heatpump"]).1,
    ((refresh_preserves_stored_devices exampleApi ["heatpump"]
      [exampleIdentity 1 "heatpump", exampleIdentity 2 "heatpump"]).2
      (exampleIdentity 1 "heatpump")
      (List.mem_cons_self _ _)).1⟩

/-! ## C7: sensors reconcile snapshots by id equality -/

/-- When no snapshot in the new list carries the held id, the held device
is left unchanged. -/
lemma update_device_data_no_match (held : DeviceDTO) :
    ∀ l : List DeviceDTO, (∀ p ∈ l, p.id ≠ held.id) →
    update_device_data held l = held := by
  intro l
  induction l with
  | nil => intro _; rfl
  | cons p rest ih =>
    intro hne
    have hp : p.id ≠ held.id := hne p (List.mem_cons_self p rest)
    have hrest : ∀ q ∈ rest, q.id ≠ held.id :=
      fun q hq => hne q (List.mem_cons_of_mem p hq)
    simp [update_device_data, hp, ih hrest]

/-- The first snapshot whose id equals the held id replaces the held
device wholesale, regardless of its position. -/
lemma update_device_data_first_match (held : DeviceDTO) :
    ∀ (pre : List DeviceDTO) (d : DeviceDTO) (post : List DeviceDTO),
    (∀ p ∈ pre, p.id ≠ held.id) → d.id = held.id →
    update_device_data held (pre ++ d :: post) = d := by
  intro pre
  induction pre with
  | nil =>
    intro d post _ hid
    simp [update_device_data, hid]
  | cons p rest ih =>
    intro d post hne hid
    have hp : p.id ≠ held.id := hne p (List.mem_cons_self p rest)
    have hrest : ∀ q ∈ rest, q.id ≠ held.id :=
      fun q hq => hne q (List.mem_cons_of_mem p hq)
    simp [update_device_data, hp, ih d post hrest hid]

/-- C7: on a new snapshot list, a sensor adopts the first snapshot whose
id equals its held device id, wholesale and independent of position, and
keeps its held device unchanged when no id matches. -/
theorem sensor_update_matches_by_id (l : List DeviceDTO) (held : DeviceDTO) :
    ((∀ p ∈ l, p.id ≠ held.id) → update_device_data held l = held) ∧
    (∀ pre d post, l = pre ++ d :: post →
      (∀ p ∈ pre, p.id ≠ held.id) → d.id = held.id →
      update_device_data held l = d) := by
  refine ⟨update_device_data_no_match held l, ?_⟩
  intro pre d post hsplit hne hid
  rw [hsplit]
  exact update_device_data_first_match held pre d post hne hid

/-- C7 witness: a held device with id 7 adopts the snapshot with id 7 even
though it sits in second position behind the snapshot with id 5. -/
theorem sensor_update_matches_by_id_witness :
    update_device_data (exampleIdentity 7 "heatpump")
      [exampleIdentity 5 "heatpump", exampleIdentity 7 "other"]
      = exampleIdentity 7 "other" :=
  (sensor_update_matches_by_id
      [exampleIdentity 5 "heatpump", exampleIdentity 7 "other"]
      (exampleIdentity 7 "heatpump")).2
    [exampleIdentity 5 "heatpump"] (exampleIdentity 7 "other") [] rfl
    (by intro p hp; rcases List.mem_singleton.mp hp with rfl; decide) rfl

/-! ## C4: energy-counter scaling quirk -/

/-- C4: the export_energy and import_energy value functions divide a
numeric raw value by 100 exactly when it is strictly positive and return
it unchanged at or below zero; on concrete inputs, 150 scales to 3/2,
0 stays 0, -50 stays -50 and 200 scales to 2. -/
theorem energy_counter_scaling :
    (∀ (d : DeviceDTO) (rt : RealtimeInfoDTO) (c : CommonInfoDTO) (q : ℚ),
      d.realtime_info = some rt → rt.common = some c →
      c.export_energy = some (.vNum q) →
      (0 < q → sensor_export_energy.value_fn d = .ok (some (.vNum (q / 100)))) ∧
      (q ≤ 0 → sensor_export_energy.value_fn d = .ok (some (.vNum q)))) ∧
    (∀ (d : DeviceDTO) (rt : RealtimeInfoDTO) (c : CommonInfoDTO) (q : ℚ),
      d.realtime_info = some rt → rt.common = some c →
      c.import_energy = some (.vNum q) →
      (0 < q → sensor_import_energy.value_fn d = .ok (some (.vNum (q / 100)))) ∧
      (q ≤ 0 → sensor_import_energy.value_fn d = .ok (some (.vNum q)))) ∧
    sensor_export_energy.value_fn (exampleExportDevice (some (.vNum 150)))
      = .ok (some (.vNum (3 / 2))) ∧
    sensor_export_energy.value_fn (exampleExportDevice (some (.vNum 0)))
      = .ok (some (.vNum 0)) ∧
    sensor_export_energy.value_fn (exampleExportDevice (some (.vNum (-50))))
      = .ok (some (.vNum (-50))) ∧
    sensor_export_energy.value_fn (exampleExportDevice (some (.vNum 200)))
      = .ok (some (.vNum 2)) ∧
    sensor_import_energy.value_fn (exampleImportDevice (some (.vNum 150)))
      = .ok (some (.vNum (3 / 2))) := by
  refine ⟨?_, ?_, ?_, ?_, ?_, ?_, ?_⟩
  · intro d rt c q hrt hc hq
    constructor
    · intro hpos
      simp [sensor_export_energy, energyScaledValue, hrt, hc, hq, valGtZero, valDiv100, hpos]
    · intro hle
      have hnot : ¬ (0 < q) := not_lt.mpr hle
      simp [sensor_export_energy, energyScaledValue, hrt, hc, hq, valGtZero, valDiv100, hnot]
  · intro d rt c q hrt hc hq
    constructor
    · intro hpos
      simp [sensor_import_energy, energyScaledValue, hrt, hc, hq, valGtZero, valDiv100, hpos]
    · intro hle
      have hnot : ¬ (0 < q) := not_lt.mpr hle
      simp [sensor_import_energy, energyScaledValue, hrt, hc, hq, valGtZero, valDiv100, hnot]
  · norm_num [sensor_export_energy, energyScaledValue, exampleExportDevice, valGtZero, valDiv100]
  · norm_num [sensor_export_energy, energyScaledValue, exampleExportDevice, valGtZero, valDiv100]
  · norm_num [sensor_export_energy, energyScaledValue, exampleExportDevice, valGtZero, valDiv100]
  · norm_num [sensor_export_energy, energyScaledValue, exampleExportDevice, valGtZero, valDiv100]
  · norm_num [sensor_import_energy, energyScaledValue, exampleImportDevice, valGtZero, valDiv100]

/-- C4 witness: the scaling branch evaluated through the theorem at a
concrete positive raw value, 500 scaling to 5. -/
theorem energy_counter_scaling_witness :
    sensor_export_energy.value_fn (exampleExportDevice (some (.vNum 500)))
      = .ok (some (.vNum (500 / 100))) :=
  ((energy_counter_scaling.1 (exampleExportDevice (some (.vNum 500)))
      { common := some { export_energy := some (.vNum 500) }, heatpump := .null }
      { export_energy := some (.vNum 500) } 500 rfl rfl rfl).1
    (by norm_num))

/-! ## C5: operation-mode text table (corrected: the table is Dutch) -/

/-- C5 counterexample: at operation mode 2 the code returns the Dutch
string Verwarming, not Heating as the claim states. -/
theorem operation_mode_text_counterexample :
    get_friendly_operation_mode_text (exampleModeDevice (some (.vInt 2)))
      = .ok "Verwarming" ∧
    ("Verwarming" : String) ≠ "Heating" :=
  ⟨rfl, by decide⟩

/-- C5 as amended: the lookup maps 1 to Koeling, 2 to Verwarming, 3 to
Auto th-TOUCH, 4 to Auto Wp, 5 to Haard, every other integer to Unknown
operation mode, and missing or non-numeric input to Unavailable. -/
theorem operation_mode_text_table (d : DeviceDTO) (rt : RealtimeInfoDTO) (c : CommonInfoDTO)
    (hrt : d.realtime_info = some rt) (hc : rt.common = some c) :
    (c.operation_mode = none →
      get_friendly_operation_mode_text d = .ok "Unavailable") ∧
    (∀ n : Int, c.operation_mode = some (.vInt n) →
      get_friendly_operation_mode_text d
        = .ok (if n = 1 then "Koeling" else if n = 2 then "Verwarming"
            else if n = 3 then "Auto th-TOUCH" else if n = 4 then "Auto Wp"
            else if n = 5 then "Haard" else "Unknown operation mode")) ∧
    (∀ s : String, c.operation_mode = some (.vStr s) → s.toInt? = none →
      get_friendly_operation_mode_text d = .ok "Unavailable") := by
  refine ⟨?_, ?_, ?_⟩
  · intro hnone
    simp [get_friendly_operation_mode_text, hrt, hc, hnone, pyIntOf]
  · intro n hn
    simp [get_friendly_operation_mode_text, hrt, hc, hn, pyIntOf]
  · intro s hs hparse
    simp [get_friendly_operation_mode_text, hrt, hc, hs, pyIntOf, hparse]

/-- C5 witness: the amended table evaluated through the theorem at the
concrete codes 2 (Verwarming), 99 (the default) and a missing mode
(Unavailable). -/
theorem operation_mode_text_table_witness :
    get_friendly_operation_mode_text (exampleModeDevice (some (.vInt 2)))
      = .ok "Verwarming" ∧
    get_friendly_operation_mode_text (exampleModeDevice (some (.vInt 99)))
      = .ok "Unknown operation mode" ∧
    get_friendly_operation_mode_text (exampleModeDevice none)
      = .ok "Unavailable" := by
  refine ⟨?_, ?_, ?_⟩
  · have h := (operation_mode_text_table (exampleModeDevice (some (.vInt 2)))
      { common := some { operation_mode := some (.vInt 2) }, heatpump := .null }
      { operation_mode := some (.vInt 2) } rfl rfl).2.1 2 rfl
    simpa using h
  · have h := (operation_mode_text_table (exampleModeDevice (some (.vInt 99)))
      { common := some { operation_mode := some (.vInt 99) }, heatpump := .null }
      { operation_mode := some (.vInt 99) } rfl rfl).2.1 99 rfl
    simpa using h
  · exact (operation_mode_text_table (exampleModeDevice none)
      { common := some { operation_mode := none }, heatpump := .null }
      { operation_mode := none } rfl rfl).1 rfl

/-! ## C8: per-field value errors are isolated -/

/-- C8: for every descriptor of the sensor table, an exception raised
while computing its value yields the None state for that one field, never
escapes the value read, and the pass over the whole table still produces
one state per descriptor. -/
theorem native_value_error_isolation (desc : EpluconSensorEntityDescription)
    (device : DeviceDTO) (e : PyErr)
    (_hmem : desc ∈ SENSORS) (herr : desc.value_fn device = .error e) :
    native_value desc device = none ∧
    (SENSORS.map (fun d2 => native_value d2 device)).length = SENSORS.length := by
  constructor
  · simp [native_value, herr]
  · simp

/-- C8 witness: the indoor-temperature descriptor on a device without
realtime data raises AttributeError inside its value function, and the
sensor state is None. -/
theorem native_value_error_isolation_witness :
    native_value sensor_indoor_temperature (exampleIdentity 1 "heatpump") = none :=
  (native_value_error_isolation sensor_indoor_temperature (exampleIdentity 1 "heatpump")
    .attributeError (List.mem_cons_self _ _) rfl).1

/-! ## C9: the heatloading_for_heating value reads the domestic_hot_water key -/

/-- C9: the value function of the heatloading_for_heating descriptor is
the very value function of the domestic_hot_water descriptor, returning
the configurations entry under the domestic_hot_water key, although its
existence predicate checks for the heatloading_for_heating key. -/
theorem heatloading_for_heating_uses_dhw_key (device : DeviceDTO) :
    sensor_heatloading_for_heating.value_fn device
      = sensor_domestic_hot_water.value_fn device ∧
    (∀ (h : HeatLoadingDTO) (cfg : List (String × Val)) (v : Val),
      device.heatloading_status = some h → h.configurations = some cfg →
      lookupKey "domestic_hot_water" cfg = some v →
      sensor_heatloading_for_heating.value_fn device = .ok (some v)) ∧
    (∀ (h : HeatLoadingDTO) (cfg : List (String × Val)),
      device.heatloading_status = some h → h.configurations = some cfg →
      sensor_heatloading_for_heating.exists_fn device
        = (lookupKey "heatloading_for_heating" cfg).isSome) := by
  refine ⟨rfl, ?_, ?_⟩
  · intro h cfg v hh hcfg hv
    simp [sensor_heatloading_for_heating, configurationsValue, hh, hcfg, hv]
  · intro h cfg hh hcfg
    simp [sensor_heatloading_for_heating, configurationsExists, hh, hcfg]

/-- A device whose heat-loading configurations carry distinct values under
the domestic_hot_water and heatloading_for_heating keys. -/
def exampleHeatloadingDevice : DeviceDTO :=
  { id := 1, name := "Heat pump", type := "heatpump", account_module_index := "ami-1",
    heatloading_status := some
      { heatloading_active := some (.vStr "on"),
        configurations := some
          [("domestic_hot_water", .vStr "on"), ("heatloading_for_heating", .vStr "off")] } }

/-- C9 witness: on a device whose two configuration keys carry different
values, the heatloading_for_heating value is the domestic_hot_water entry
(on), not the entry under its own key (off). -/
theorem heatloading_for_heating_uses_dhw_key_witness :
    sensor_heatloading_for_heating.value_fn exampleHeatloadingDevice
      = .ok (some (.vStr "on")) :=
  (heatloading_for_heating_uses_dhw_key exampleHeatloadingDevice).2.1
    { heatloading_active := some (.vStr "on"),
      configurations := some
        [("domestic_hot_water", .vStr "on"), ("heatloading_for_heating", .vStr "off")] }
    [("domestic_hot_water", .vStr "on"), ("heatloading_for_heating", .vStr "off")]
    (.vStr "on") rfl rfl rfl

/-! ## C6: device listing maps the data array one to one, in order -/

/-- A lookup that succeeds in the front part of an association list is
unchanged by appending further entries. -/
lemma lookupKey_append_left {α : Type} (k : String) :
    ∀ (fields extra : List (String × α)),
    (lookupKey k fields).isSome = true →
    lookupKey k (fields ++ extra) = lookupKey k fields := by
  intro fields extra
  induction fields with
  | nil => intro h; simp [lookupKey] at h
  | cons p rest ih =>
    intro h
    obtain ⟨k2, v⟩ := p
    by_cases hk : k2 = k
    · simp [lookupKey, hk]
    · simp only [List.cons_append]
      simp [lookupKey, hk] at h ⊢
      exact ih h

/-- When every entry of the array decodes, the comprehension returns one
device per entry, in order. -/
lemma buildDeviceDTOs_ok :
    ∀ xs : List Json, (∀ x ∈ xs, ∃ dev, deviceFromJsonE x = .ok dev) →
    ∃ l, buildDeviceDTOs xs = .ok l ∧ l.length = xs.length ∧
      ∀ (i : ℕ) (hx : i < xs.length) (hl : i < l.length),
        deviceFromJsonE (xs.get ⟨i, hx⟩) = .ok (l.get ⟨i, hl⟩) := by
  intro xs
  induction xs with
  | nil =>
    intro _
    exact ⟨[], rfl, rfl, fun i hx => absurd hx (by simp)⟩
  | cons x rest ih =>
    intro hok
    obtain ⟨d, hd⟩ := hok x (List.mem_cons_self x rest)
    obtain ⟨l, hl, hlen, hpt⟩ := ih (fun y hy => hok y (List.mem_cons_of_mem x hy))
    refine ⟨d :: l, ?_, by simp [hlen], ?_⟩
    · simp [buildDeviceDTOs, hd, hl]
    · intro i hx hl2
      cases i with
      | zero => simpa using hd
      | succ j =>
        have hx2 : j < rest.length := by simpa using hx
        have hl3 : j < l.length := by simpa using hl2
        simpa using hpt j hx2 hl3

/-- C6: on a valid 200 listing response whose data entries all decode,
get_devices returns one DeviceDTO per entry of the data array, in array
order; and the DeviceDTO built from a JSON object is insensitive to
arbitrary extra fields appended beyond the four identity fields. -/
theorem get_devices_maps_data (body : List (String × Json)) (xs : List Json) (v : Json)
    (hauth : lookupKey "auth" body = some v) (htrue : truthy v = true)
    (hdata : lookupKey "data" body = some (.arr xs))
    (hok : ∀ x ∈ xs, ∃ dev, deviceFromJsonE x = .ok dev) :
    (∃ l, get_devices 200 body = .ok l ∧ l.length = xs.length ∧
      ∀ (i : ℕ) (hx : i < xs.length) (hl : i < l.length),
        deviceFromJsonE (xs.get ⟨i, hx⟩) = .ok (l.get ⟨i, hl⟩)) ∧
    (∀ (fields extra : List (String × Json)),
      (lookupKey "id" fields).isSome = true →
      (lookupKey "name" fields).isSome = true →
      (lookupKey "type" fields).isSome = true →
      (lookupKey "account_module_index" fields).isSome = true →
      deviceFromJson (fields ++ extra) = deviceFromJson fields) := by
  constructor
  · obtain ⟨l, hbl, hlen, hpt⟩ := buildDeviceDTOs_ok xs hok
    refine ⟨l, ?_, hlen, hpt⟩
    simp [get_devices, validate_response, hauth, htrue, hdata, hbl]
  · intro fields extra hid hname htype hami
    have h1 := lookupKey_append_left "id" fields extra hid
    have h2 := lookupKey_append_left "name" fields extra hname
    have h3 := lookupKey_append_left "type" fields extra htype
    have h4 := lookupKey_append_left "account_module_index" fields extra hami
    simp only [deviceFromJson, h1, h2, h3, h4]

/-- The entries of a concrete device-listing data array; the first one
carries an extra unknown field. -/
def exampleListingEntries : List Json :=
  [.obj [("id", .num 1), ("name", .str "Device A"), ("type", .str "heatpump"),
         ("account_module_index", .str "ami-a"), ("firmware", .str "1.2.3")],
   .obj [("id", .num 2), ("name", .str "Device B"), ("type", .str "heatpump"),
         ("account_module_index", .str "ami-b")]]

/-- A concrete valid listing envelope around exampleListingEntries. -/
def exampleListingBody : List (String × Json) :=
  [("auth", .bool true), ("data", .arr exampleListingEntries)]

/-- C6 witness: on the concrete two-entry listing, one of whose entries
carries an extra unknown field, get_devices returns a list of exactly two
devices. -/
theorem get_devices_maps_data_witness :
    ∃ l, get_devices 200 exampleListingBody = .ok l ∧ l.length = 2 := by
  have hok : ∀ x ∈ exampleListingEntries, ∃ dev, deviceFromJsonE x = .ok dev := by
    intro x hx
    rcases List.mem_cons.mp hx with rfl | hx2
    · exact ⟨_, rfl⟩
    · rcases List.mem_cons.mp hx2 with rfl | hx3
      · exact ⟨_, rfl⟩
      · exact absurd hx3 (List.not_mem_nil x)
  obtain ⟨⟨l, hl, hlen, _⟩, _⟩ := get_devices_maps_data exampleListingBody
    exampleListingEntries (Json.bool true) rfl rfl rfl hok
  exact ⟨l, hl, hlen⟩

end Eplucon
